import Mathlib

/-!
Verification development for the MIDI-Cube multi-transport MIDI router.

The definitions below are shallow embeddings of the C sources:
machine integers are modelled as `Nat` (with explicit masks `% 2^w`
or `&&& mask` exactly where the C performs a narrowing conversion whose
result could differ), `esp_err_t` return codes become an inductive
`EspErr`, fallible functions return `Except EspErr α`, and C out-parameters
are threaded explicitly: a function that writes through a pointer takes the
pre-state of the pointee and returns the post-state.  Uninitialized C
locals passed as out-parameters are modelled as zero-initialized values.
-/

/-- The `esp_err_t` values that appear in the embedded sources. -/
inductive EspErr where
  | ESP_OK
  | ESP_ERR_INVALID_ARG
  | ESP_ERR_INVALID_STATE
  | ESP_ERR_NOT_SUPPORTED
  | ESP_ERR_NO_MEM
  | ESP_FAIL
deriving DecidableEq, Repr

/-! ## Translator scaling functions (`midi_translator` component)

Embedded from `midi_upscale_7to16`, `midi_upscale_14to32`,
`midi_downscale_16to7`, `midi_downscale_32to14`.  All intermediate C
arithmetic is on `uint32_t` and never exceeds `2^32`, and every returned
value fits the declared return width, so the `Nat` translation is exact. -/

def midi_upscale_7to16 (value7 : Nat) : Nat :=
  if value7 = 0 then 0
  else if value7 = 64 then 32768
  else if value7 ≥ 127 then 65535
  else if value7 < 64 then (value7 * 32767) / 63
  else 32768 + ((value7 - 64) * 32767) / 63

def midi_upscale_14to32 (value14 : Nat) : Nat :=
  if value14 = 0 then 0
  else if value14 = 8192 then 0x80000000
  else if value14 ≥ 16383 then 0xFFFFFFFF
  else if value14 < 8192 then (value14 * 0x7FFFFFFF) / 8191
  else 0x80000000 + ((value14 - 8192) * 0x7FFFFFFF) / 8191

def midi_downscale_16to7 (value16 : Nat) : Nat :=
  value16 >>> 9

def midi_downscale_32to14 (value32 : Nat) : Nat :=
  value32 >>> 18

/-! ## UMP codec (`ump_parser.c` / `ump_message.c` sources)

`ump_packet_t` is embedded with its `words[4]` array as an explicit
four-field record `Words4`; `memcpy(dst, src, 4*n)` on word arrays becomes
`copyWords n src dst`, which takes the first `n` words from `src` and keeps
the remaining words of `dst` (the pre-state of the destination). -/

def UMP_MT_UTILITY : Nat := 0x0
def UMP_MT_SYSTEM : Nat := 0x1
def UMP_MT_MIDI1_CHANNEL_VOICE : Nat := 0x2
def UMP_MT_DATA_64 : Nat := 0x3
def UMP_MT_MIDI2_CHANNEL_VOICE : Nat := 0x4
def UMP_MT_DATA_128 : Nat := 0x5
def UMP_MT_RESERVED_6 : Nat := 0x6
def UMP_MT_RESERVED_7 : Nat := 0x7
def UMP_MT_RESERVED_8 : Nat := 0x8
def UMP_MT_RESERVED_9 : Nat := 0x9
def UMP_MT_RESERVED_A : Nat := 0xA
def UMP_MT_RESERVED_B : Nat := 0xB
def UMP_MT_RESERVED_C : Nat := 0xC
def UMP_MT_FLEX_DATA : Nat := 0xD
def UMP_MT_RESERVED_E : Nat := 0xE
def UMP_MT_UMP_STREAM : Nat := 0xF

/-- `UMP_GET_MT(word0)`: bits 31-28 of the first word. -/
def UMP_GET_MT (word0 : Nat) : Nat := (word0 >>> 28) &&& 0x0F

/-- `UMP_GET_GROUP(word0)`: bits 27-24 of the first word. -/
def UMP_GET_GROUP (word0 : Nat) : Nat := (word0 >>> 24) &&& 0x0F

/-- A four-entry `uint32_t` word array. -/
structure Words4 where
  w0 : Nat
  w1 : Nat
  w2 : Nat
  w3 : Nat
deriving DecidableEq, Repr

/-- `memcpy` of the first `n` words of `src` over `dst`. -/
def copyWords (n : Nat) (src dst : Words4) : Words4 where
  w0 := if 0 < n then src.w0 else dst.w0
  w1 := if 1 < n then src.w1 else dst.w1
  w2 := if 2 < n then src.w2 else dst.w2
  w3 := if 3 < n then src.w3 else dst.w3

structure ump_packet_t where
  words : Words4
  num_words : Nat
  message_type : Nat
  group : Nat
  timestamp_us : Nat
deriving DecidableEq, Repr

def words4_zero : Words4 := ⟨0, 0, 0, 0⟩

def ump_packet_zero : ump_packet_t :=
  { words := words4_zero, num_words := 0, message_type := 0, group := 0,
    timestamp_us := 0 }

/-- The `switch (mt)` of `ump_parser_parse_packet` deriving the word count;
`none` is the `default:` branch returning `ESP_ERR_NOT_SUPPORTED`. -/
def ump_mt_size_words (mt : Nat) : Option Nat :=
  if mt = UMP_MT_UTILITY ∨ mt = UMP_MT_SYSTEM ∨ mt = UMP_MT_MIDI1_CHANNEL_VOICE ∨
      mt = UMP_MT_RESERVED_6 ∨ mt = UMP_MT_RESERVED_7 then some 1
  else if mt = UMP_MT_DATA_64 ∨ mt = UMP_MT_MIDI2_CHANNEL_VOICE ∨
      mt = UMP_MT_RESERVED_8 ∨ mt = UMP_MT_RESERVED_9 ∨ mt = UMP_MT_RESERVED_A then some 2
  else if mt = UMP_MT_RESERVED_B ∨ mt = UMP_MT_RESERVED_C then some 3
  else if mt = UMP_MT_DATA_128 ∨ mt = UMP_MT_FLEX_DATA ∨ mt = UMP_MT_UMP_STREAM ∨
      mt = UMP_MT_RESERVED_E then some 4
  else none

/-- `ump_parser_parse_packet(words, packet)`: reads `words[0]`, derives the
size, copies that many words into the caller's packet (whose pre-state is
the `packet` argument), and sets the denormalized fields.  The null-pointer
checks of the C code have no counterpart in the embedding. -/
def ump_parser_parse_packet (words : Words4) (packet : ump_packet_t) :
    Except EspErr ump_packet_t :=
  match ump_mt_size_words (UMP_GET_MT words.w0) with
  | none => .error .ESP_ERR_NOT_SUPPORTED
  | some n =>
      .ok { words := copyWords n words packet.words
            num_words := n
            message_type := UMP_GET_MT words.w0
            group := UMP_GET_GROUP words.w0
            timestamp_us := 0 }

/-- `ump_message_serialize(packet, words_out, words_out_count)`: fails with
`ESP_ERR_INVALID_ARG` when the caller's buffer is shorter than `num_words`,
otherwise copies `num_words` words over the output array `words_out`
(whose pre-state is the `words_out` argument). -/
def ump_message_serialize (packet : ump_packet_t) (words_out : Words4)
    (words_out_count : Nat) : Except EspErr Words4 :=
  if words_out_count < packet.num_words then .error .ESP_ERR_INVALID_ARG
  else .ok (copyWords packet.num_words packet.words words_out)

/-- A valid UMP packet in the sense of spec §3 and claim C6: the
denormalized Message Type and Group agree with word 0, `num_words` is the
size the Message Type mandates, and unused words are zero. -/
def ump_packet_valid (p : ump_packet_t) : Prop :=
  p.message_type = UMP_GET_MT p.words.w0 ∧
  p.group = UMP_GET_GROUP p.words.w0 ∧
  ump_mt_size_words p.message_type = some p.num_words ∧
  (p.num_words ≤ 1 → p.words.w1 = 0) ∧
  (p.num_words ≤ 2 → p.words.w2 = 0) ∧
  (p.num_words ≤ 3 → p.words.w3 = 0)

instance (p : ump_packet_t) : Decidable (ump_packet_valid p) := by
  unfold ump_packet_valid
  infer_instance

/-- The Message-Type size table exactly as claim C7 states it
(MT 0x0-0x2, 0x6-0x7 one word; 0x3-0x4, 0x8-0xA two; 0xB-0xC three;
0x5, 0xD-0xF four), for comparison with the code's `switch`. -/
def claim_mt_size (mt : Nat) : Nat :=
  if mt ≤ 2 ∨ mt = 6 ∨ mt = 7 then 1
  else if mt = 3 ∨ mt = 4 ∨ (8 ≤ mt ∧ mt ≤ 10) then 2
  else if mt = 11 ∨ mt = 12 then 3
  else 4

instance instDecEqExceptEmb {ε α : Type} [DecidableEq ε] [DecidableEq α] :
    DecidableEq (Except ε α) := fun a b =>
  match a, b with
  | .ok x, .ok y =>
      decidable_of_iff (x = y) ⟨fun h => by rw [h], fun h => by injection h⟩
  | .error x, .error y =>
      decidable_of_iff (x = y) ⟨fun h => by rw [h], fun h => by injection h⟩
  | .ok _, .error _ => .isFalse fun h => Except.noConfusion h
  | .error _, .ok _ => .isFalse fun h => Except.noConfusion h

def exceptIsOk {ε α : Type} : Except ε α → Bool
  | .ok _ => true
  | .error _ => false

/-! ## MIDI 2.0 builders and the 1↔2 translator

The repository keeps `midi_message_t` in two mutually incompatible shapes
(spec §9): the byte-stream parser sees a variant with a `data.bytes[2]`
union, while the translator sources see a variant with `data1`/`data2`
scalars and a `length`.  The latter is embedded here as
`midi_message_scalar_t`; only the fields the embedded operations read or
write are carried (`type`, `timestamp_us` and the SysEx borrow of the C
struct are never touched by them). -/

def MIDI_STATUS_NOTE_ON : Nat := 0x90

structure midi_message_scalar_t where
  status : Nat
  channel : Nat
  data1 : Nat
  data2 : Nat
  length : Nat
deriving DecidableEq, Repr

/-- `ump_build_midi2_note_on` (the definition compiled into the repo;
two byte-identical copies exist among the sources).  `packet_out` is the
pre-state of the caller's packet: the C writes `words[0]`, `words[1]`,
`num_words`, `message_type`, `group` and `timestamp_us` and leaves
`words[2]`, `words[3]` as they were.  The `uint16_t`/`uint8_t` parameter
domains are reflected by reducing `velocity16`, `attr_type` and
`attr_data` to their declared widths. -/
def ump_build_midi2_note_on (group channel note velocity16 attr_type attr_data : Nat)
    (packet_out : ump_packet_t) : Except EspErr ump_packet_t :=
  if group > 0x0F ∨ channel > 0x0F ∨ note > 0x7F then .error .ESP_ERR_INVALID_ARG
  else
    let word0 := (UMP_MT_MIDI2_CHANNEL_VOICE <<< 28) ||| ((group &&& 0x0F) <<< 24) |||
        (0x90 <<< 16) ||| ((channel &&& 0x0F) <<< 16) ||| (note <<< 8)
    let word1 := ((velocity16 % 65536) <<< 16) ||| ((attr_type % 256) <<< 8) |||
        (attr_data &&& 0xFFFF)
    .ok { packet_out with
          words := { packet_out.words with w0 := word0, w1 := word1 }
          num_words := 2
          message_type := UMP_MT_MIDI2_CHANNEL_VOICE
          group := group
          timestamp_us := 0 }

/-- `midi_translate_1to2`: only Note On (`status & 0xF0 == 0x90`) is
translated; the velocity is upscaled and a MIDI 2.0 Note On is built on
group 0.  The uninitialized `ump_packet_t ump` local of the C caller is
modelled as the zero packet. -/
def midi_translate_1to2 (msg : midi_message_scalar_t) :
    Except EspErr ump_packet_t :=
  if msg.status &&& 0xF0 = MIDI_STATUS_NOTE_ON then
    ump_build_midi2_note_on 0 msg.channel msg.data1
      (midi_upscale_7to16 msg.data2) 0 0 ump_packet_zero
  else .error .ESP_ERR_NOT_SUPPORTED

/-- `midi_translate_2to1`: handles MT 0x4 only.  The C computes a local
`status = (word0 >> 16) & 0xFF` that it never uses, then extracts
`channel = (word0 >> 8) & 0xF` and `note = (word0 >> 8) & 0xFF`
(both from the note byte), downscales the 16-bit velocity
(`uint16_t velocity16 = word1 >> 16`), and writes a Note On. -/
def midi_translate_2to1 (packet : ump_packet_t) :
    Except EspErr midi_message_scalar_t :=
  if packet.message_type = UMP_MT_MIDI2_CHANNEL_VOICE then
    let word0 := packet.words.w0
    let word1 := packet.words.w1
    let channel := (word0 >>> 8) &&& 0xF
    let note := (word0 >>> 8) &&& 0xFF
    let velocity16 := (word1 >>> 16) % 65536
    let velocity7 := midi_downscale_16to7 velocity16
    .ok { status := MIDI_STATUS_NOTE_ON ||| channel
          channel := channel
          data1 := note
          data2 := velocity7
          length := 3 }
  else .error .ESP_ERR_NOT_SUPPORTED

/-! ## MIDI 1.0 byte-stream parser (`midi_parser.c`)

The parser-side `midi_message_t` is the union variant of the repository's
`midi_types.h` (spec §9): `type`, `status`, `channel` and a union of
`bytes[2]` with a SysEx descriptor.  The union members the embedded code
writes are carried as separate fields (`bytes0`, `bytes1`,
`sysex_length`); the SysEx `data` pointer of the C struct aliases the
parser's borrowed buffer, which lives in the parser state here.
`midi_parser_parse_byte` threads both out-parameters explicitly: it maps
the pre-states of `state` and `msg` to their post-states plus the
`message_complete` flag, and (after the null checks, absent here) returns
`ESP_OK` on every path. -/

inductive midi_message_type_t where
  | MIDI_MSG_TYPE_CHANNEL
  | MIDI_MSG_TYPE_SYSTEM_COMMON
  | MIDI_MSG_TYPE_SYSTEM_REALTIME
  | MIDI_MSG_TYPE_SYSTEM_EXCLUSIVE
  | MIDI_MSG_TYPE_UNKNOWN
deriving DecidableEq, Repr

structure midi_message_t where
  type : midi_message_type_t
  status : Nat
  channel : Nat
  bytes0 : Nat
  bytes1 : Nat
  sysex_length : Nat
deriving DecidableEq, Repr

structure midi_parser_state_t where
  running_status : Nat
  data_bytes0 : Nat
  data_bytes1 : Nat
  data_index : Nat
  expected_data_bytes : Nat
  in_sysex : Bool
  sysex_has_buffer : Bool
  sysex_buffer : List Nat
  sysex_index : Nat
  sysex_buffer_size : Nat
  messages_parsed : Nat
  parse_errors : Nat
deriving DecidableEq, Repr

def midi_is_status_byte (b : Nat) : Bool := b &&& 0x80 ≠ 0

def midi_is_data_byte (b : Nat) : Bool := b &&& 0x80 = 0

def midi_is_realtime_message (s : Nat) : Bool := s ≥ 0xF8

def midi_is_system_common_message (s : Nat) : Bool := 0xF0 ≤ s ∧ s ≤ 0xF7

def midi_is_channel_message (s : Nat) : Bool := 0x80 ≤ s ∧ s < 0xF0

/-- `midi_get_data_byte_count(status)`: the data-byte count table. -/
def midi_get_data_byte_count (status : Nat) : Nat :=
  if midi_is_channel_message status then
    if status &&& 0xF0 = 0xC0 ∨ status &&& 0xF0 = 0xD0 then 1 else 2
  else if midi_is_system_common_message status then
    if status = 0xF1 ∨ status = 0xF3 then 1
    else if status = 0xF2 then 2
    else 0
  else 0

/-- `midi_parser_init(state, buf, len)` after `memset(state, 0, ...)`. -/
def midi_parser_init (has_buffer : Bool) (sysex_buffer_size : Nat) :
    midi_parser_state_t :=
  { running_status := 0, data_bytes0 := 0, data_bytes1 := 0, data_index := 0,
    expected_data_bytes := 0, in_sysex := false,
    sysex_has_buffer := has_buffer, sysex_buffer := [], sysex_index := 0,
    sysex_buffer_size := sysex_buffer_size,
    messages_parsed := 0, parse_errors := 0 }

def midi_message_zero : midi_message_t :=
  { type := .MIDI_MSG_TYPE_CHANNEL, status := 0, channel := 0,
    bytes0 := 0, bytes1 := 0, sysex_length := 0 }

/-- `midi_parser_parse_byte(state, byte, msg, message_complete)`. -/
def midi_parser_parse_byte (state : midi_parser_state_t) (byte : Nat)
    (msg : midi_message_t) : midi_parser_state_t × midi_message_t × Bool :=
  if midi_is_realtime_message byte then
    ({ state with messages_parsed := state.messages_parsed + 1 },
     { msg with type := .MIDI_MSG_TYPE_SYSTEM_REALTIME, status := byte }, true)
  else if midi_is_status_byte byte then
    if byte = 0xF0 then
      ({ state with in_sysex := true, sysex_buffer := [], sysex_index := 0,
                    running_status := 0 }, msg, false)
    else if byte = 0xF7 then
      if state.in_sysex then
        ({ state with in_sysex := false,
                      messages_parsed := state.messages_parsed + 1 },
         { msg with type := .MIDI_MSG_TYPE_SYSTEM_EXCLUSIVE, status := 0xF0,
                    sysex_length := state.sysex_index }, true)
      else (state, msg, false)
    else if midi_is_system_common_message byte then
      let st := { state with in_sysex := false, running_status := 0,
                             data_index := 0,
                             expected_data_bytes := midi_get_data_byte_count byte }
      let m := { msg with type := .MIDI_MSG_TYPE_SYSTEM_COMMON, status := byte }
      if st.expected_data_bytes = 0 then
        ({ st with messages_parsed := st.messages_parsed + 1 }, m, true)
      else (st, m, false)
    else if midi_is_channel_message byte then
      ({ state with in_sysex := false, running_status := byte, data_index := 0,
                    expected_data_bytes := midi_get_data_byte_count byte },
       { msg with type := .MIDI_MSG_TYPE_CHANNEL, status := byte,
                  channel := byte &&& 0x0F }, false)
    else
      ({ state with parse_errors := state.parse_errors + 1 }, msg, false)
  else if midi_is_data_byte byte then
    if state.in_sysex then
      if state.sysex_has_buffer ∧ state.sysex_index < state.sysex_buffer_size then
        ({ state with sysex_buffer := state.sysex_buffer ++ [byte],
                      sysex_index := state.sysex_index + 1 }, msg, false)
      else if ¬ state.sysex_has_buffer then (state, msg, false)
      else ({ state with parse_errors := state.parse_errors + 1 }, msg, false)
    else if state.running_status = 0 ∧ state.expected_data_bytes = 0 then
      (state, msg, false)
    else
      let st1 :=
        if state.data_index < 2 then
          if state.data_index = 0 then
            { state with data_bytes0 := byte, data_index := state.data_index + 1 }
          else
            { state with data_bytes1 := byte, data_index := state.data_index + 1 }
        else state
      if st1.data_index ≥ st1.expected_data_bytes then
        ({ st1 with messages_parsed := st1.messages_parsed + 1, data_index := 0 },
         { msg with status := st1.running_status,
                    channel := st1.running_status &&& 0x0F,
                    bytes0 := if st1.expected_data_bytes ≥ 1 then st1.data_bytes0 else 0,
                    bytes1 := if st1.expected_data_bytes ≥ 2 then st1.data_bytes1 else 0 },
         true)
      else (st1, msg, false)
  else (state, msg, false)

/-- Feed a byte list through the parser (one `msg` struct reused across
calls, as the repository's test harness does), collecting every message
for which `message_complete` was set. -/
def midi_parser_feed (state : midi_parser_state_t) (msg : midi_message_t) :
    List Nat → List midi_message_t
  | [] => []
  | b :: rest =>
      match midi_parser_parse_byte state b msg with
      | (st, m, complete) =>
          if complete then m :: midi_parser_feed st m rest
          else midi_parser_feed st m rest

/-- The complete messages a freshly initialized parser (128-byte SysEx
buffer, zero-initialized message struct) emits for a byte sequence. -/
def midi_parser_messages (bytes : List Nat) : List midi_message_t :=
  midi_parser_feed (midi_parser_init true 128) midi_message_zero bytes

/-! ## Router (`midi_router.c`)

The router's packet carries the scalar `midi_message_t` variant (the one
its translator calls read).  The C union of the MIDI 1.0 message and the
UMP packet is embedded as two fields; the `format` tag selects the live
one.  The dispatch decision of `midi_router_task` for one dequeued packet
and one destination — everything up to the invocation of the destination's
TX callback — is `midi_router_dispatches`; statistics counters and the
callback table are peripheral state outside the embedding. -/

def MIDI_TRANSPORT_UART : Nat := 0
def MIDI_TRANSPORT_USB : Nat := 1
def MIDI_TRANSPORT_ETHERNET : Nat := 2
def MIDI_TRANSPORT_WIFI : Nat := 3
def MIDI_TRANSPORT_COUNT : Nat := 4

structure midi_filter_t where
  enabled : Bool
  channel_mask : Nat
  msg_type_mask : Nat
  block_active_sensing : Bool
  block_clock : Bool
deriving DecidableEq, Repr

structure midi_router_config_t where
  routing_matrix : Nat → Nat → Bool
  input_filters : Nat → midi_filter_t
  auto_translate : Bool
  merge_inputs : Bool
  default_group : Nat

structure midi_packet_t where
  source : Nat
  destination : Nat
  format : Nat
  midi1 : midi_message_scalar_t
  ump : ump_packet_t
deriving DecidableEq, Repr

/-- `midi_router_check_filter(packet, filter)`. -/
def midi_router_check_filter (packet : midi_packet_t)
    (filter : midi_filter_t) : Bool :=
  if filter.enabled = false then true
  else if packet.format = 0 then
    let status := packet.midi1.status
    let channel := packet.midi1.channel
    if status < 0xF0 ∧ filter.channel_mask &&& (1 <<< channel) = 0 then false
    else if filter.block_active_sensing ∧ status = 0xFE then false
    else if filter.block_clock ∧ status = 0xF8 then false
    else true
  else true

/-- `midi_router_translate(packet, dest_wants_ump)`; the global
`config.auto_translate` it reads is passed explicitly. -/
def midi_router_translate (auto_translate : Bool) (packet : midi_packet_t)
    (dest_wants : Bool) : Except EspErr midi_packet_t :=
  if auto_translate = false then .ok packet
  else if packet.format = 0 ∧ dest_wants = true then
    match midi_translate_1to2 packet.midi1 with
    | .ok u => .ok { packet with format := 1, ump := u }
    | .error e => .error e
  else if packet.format ≠ 0 ∧ dest_wants = false then
    match midi_translate_2to1 packet.ump with
    | .ok m => .ok { packet with format := 0, midi1 := m }
    | .error e => .error e
  else .ok packet

/-- `dest_wants_ump` as `midi_router_task` computes it: Ethernet, WiFi and
USB. -/
def midi_router_dest_wants_ump (dest : Nat) : Bool :=
  dest = MIDI_TRANSPORT_ETHERNET ∨ dest = MIDI_TRANSPORT_WIFI ∨
    dest = MIDI_TRANSPORT_USB

/-- The dispatch decision of `midi_router_task` for packet `packet` and
destination `dest`: the filter passes, the route is enabled (merge mode or
matrix), the destination is not the source, and translation for the
destination's format succeeds — exactly the conditions under which the
task hands the (possibly translated) packet to `dest`'s TX callback. -/
def midi_router_dispatches (config : midi_router_config_t)
    (packet : midi_packet_t) (dest : Nat) : Bool :=
  midi_router_check_filter packet (config.input_filters packet.source) &&
  (config.merge_inputs || config.routing_matrix packet.source dest) &&
  (decide (dest ≠ packet.source)) &&
  exceptIsOk (midi_router_translate config.auto_translate packet
    (midi_router_dest_wants_ump dest))

/-- The per-destination preferred-format relation exactly as claim C1
states it: the two UDP network destinations are MIDI-2-only, USB accepts
either format, the serial destination is MIDI-1-only. -/
def claim_format_matches (format : Nat) (dest : Nat) : Bool :=
  if dest = MIDI_TRANSPORT_ETHERNET ∨ dest = MIDI_TRANSPORT_WIFI then format = 1
  else if dest = MIDI_TRANSPORT_USB then true
  else format = 0

/-- A translation of the packet into the other protocol family exists
(the translator of §4.3 succeeds on it). -/
def claim_translation_exists (packet : midi_packet_t) : Bool :=
  if packet.format = 0 then exceptIsOk (midi_translate_1to2 packet.midi1)
  else exceptIsOk (midi_translate_2to1 packet.ump)

/-- The dispatch condition exactly as claim C1 (spec §8) states it, for
comparison with `midi_router_dispatches`. -/
def claim_dispatch_condition (config : midi_router_config_t)
    (packet : midi_packet_t) (dest : Nat) : Bool :=
  midi_router_check_filter packet (config.input_filters packet.source) &&
  (config.merge_inputs || config.routing_matrix packet.source dest) &&
  (decide (dest ≠ packet.source)) &&
  (claim_format_matches packet.format dest ||
    (config.auto_translate && claim_translation_exists packet))

/-! ## Concrete inputs used by witnesses and counterexamples -/

/-- A valid one-word UMP packet (MT 0x2, MIDI 1.0 Channel Voice in UMP)
with a nonzero timestamp. -/
def ump_pkt_ts1 : ump_packet_t :=
  { words := ⟨0x20903C40, 0, 0, 0⟩, num_words := 1, message_type := 0x2,
    group := 0, timestamp_us := 1 }

/-- The same packet with timestamp zero. -/
def ump_pkt_ts0 : ump_packet_t :=
  { words := ⟨0x20903C40, 0, 0, 0⟩, num_words := 1, message_type := 0x2,
    group := 0, timestamp_us := 0 }

/-- A two-word MIDI 2.0 Channel Voice packet used for the serialize
capacity claim. -/
def ump_pkt_two_words : ump_packet_t :=
  { words := ⟨0x40913C00, 0x03E80000, 0, 0⟩, num_words := 2,
    message_type := 0x4, group := 0, timestamp_us := 0 }

/-- The packet `ump_build_midi2_note_on(group=0, channel=1, note=60,
velocity16=1000, 0, 0)` produces. -/
def ump_pkt_note_ch1 : ump_packet_t :=
  { words := ⟨0x40913C00, 0x03E80000, 0, 0⟩, num_words := 2,
    message_type := 0x4, group := 0, timestamp_us := 0 }

/-- A filter with every blocking feature switched on. -/
def filter_block_all : midi_filter_t :=
  { enabled := true, channel_mask := 0, msg_type_mask := 0,
    block_active_sensing := true, block_clock := true }

/-- A disabled filter. -/
def filter_disabled : midi_filter_t :=
  { enabled := false, channel_mask := 0xFFFF, msg_type_mask := 0,
    block_active_sensing := false, block_clock := false }

/-- A MIDI 1.0 Note On packet entering from the UART transport. -/
def packet_midi1_uart : midi_packet_t :=
  { source := MIDI_TRANSPORT_UART, destination := 0xFF, format := 0,
    midi1 := { status := 0x90, channel := 0, data1 := 60, data2 := 64,
               length := 3 },
    ump := ump_packet_zero }

/-- A UMP-format packet entering from the WiFi transport. -/
def packet_ump_wifi : midi_packet_t :=
  { source := MIDI_TRANSPORT_WIFI, destination := 0xFF, format := 1,
    midi1 := { status := 0, channel := 0, data1 := 0, data2 := 0,
               length := 0 },
    ump := ump_pkt_two_words }

/-- Merge mode on, auto-translate off, all filters disabled. -/
def config_merge_no_translate : midi_router_config_t :=
  { routing_matrix := fun _ _ => false, input_filters := fun _ => filter_disabled,
    auto_translate := false, merge_inputs := true, default_group := 0 }

/-- C4: `midi_upscale_7to16` maps the inputs 0, 1, 63, 64, 65, 126 and 127
to 0, 520, 32767, 32768, 33288, 65014 and 65535.  At input 126 the code
computes `32768 + (62*32767)/63 = 65014`, one below the value 65015 that
the repository's own test table (`test_midi_core.c`) and the symmetric
min-center-max law expect: truncating division breaks the symmetry
`upscale(127 - v) = 65535 - upscale(v)` between 1 ↦ 520 and 126. -/
theorem upscale_7to16_fixed_points :
    midi_upscale_7to16 0 = 0 ∧
    midi_upscale_7to16 1 = 520 ∧
    midi_upscale_7to16 63 = 32767 ∧
    midi_upscale_7to16 64 = 32768 ∧
    midi_upscale_7to16 65 = 33288 ∧
    midi_upscale_7to16 126 = 65014 ∧
    midi_upscale_7to16 127 = 65535 := by
  decide

/-- C5: the min-center-max anchors hold and the 9-bit right shift
`midi_downscale_16to7` inverts `midi_upscale_7to16` on every
7-bit value `v ∈ [0,127]`. -/
theorem downscale_16to7_roundtrip (v : Nat) (h : v ≤ 127) :
    midi_upscale_7to16 0 = 0 ∧
    midi_upscale_7to16 64 = 32768 ∧
    midi_upscale_7to16 127 = 65535 ∧
    midi_downscale_16to7 (midi_upscale_7to16 v) = v := by
  revert v h
  decide

theorem downscale_16to7_roundtrip_witness :
    (100 : Nat) ≤ 127 ∧
      midi_downscale_16to7 (midi_upscale_7to16 100) = 100 :=
  ⟨by decide, (downscale_16to7_roundtrip 100 (by decide)).2.2.2⟩

/-- C9: feeding `[0x90, 0x3C, 0x64, 0x40, 0x70]` to a freshly initialized
parser emits exactly two complete messages — the explicit Note On
`{status 0x90, channel 0, bytes [0x3C, 0x64]}` and then, via running
status, `{status 0x90, channel 0, bytes [0x40, 0x70]}` — and no other
byte of the sequence completes a message. -/
theorem running_status_two_note_ons :
    midi_parser_messages [0x90, 0x3C, 0x64, 0x40, 0x70] =
      [{ type := .MIDI_MSG_TYPE_CHANNEL, status := 0x90, channel := 0,
         bytes0 := 0x3C, bytes1 := 0x64, sysex_length := 0 },
       { type := .MIDI_MSG_TYPE_CHANNEL, status := 0x90, channel := 0,
         bytes0 := 0x40, bytes1 := 0x70, sysex_length := 0 }] := by
  decide

/-- C2: feeding Song Position `0xF2` and two data bytes to an idle parser
does emit exactly one complete message, but that message carries status
`0x00`, not `0xF2`: the System Common branch clears `running_status`, and
the data-byte completion path then writes `msg->status =
state->running_status`, overwriting the `0xF2` it had stored.  The emitted
status is not a well-formed status byte, violating the parser invariant. -/
theorem song_position_status_zero :
    midi_parser_messages [0xF2, 0x10, 0x20] =
      [{ type := .MIDI_MSG_TYPE_SYSTEM_COMMON, status := 0, channel := 0,
         bytes0 := 0x10, bytes1 := 0x20, sysex_length := 0 }] := by
  decide

/-- C3: building a MIDI 2.0 Note On with channel 1 and note 60 and
translating it back with `midi_translate_2to1` yields channel 12 and
status 0x9C, not the channel 1 / status 0x91 the claim (and the repo's own
`UMP_GET_CHANNEL` macro) requires: the translator extracts the channel
from word-0 bits 11-8 — the low nibble of the note byte — instead of
bits 19-16. -/
theorem translate_2to1_channel_not_preserved :
    ump_build_midi2_note_on 0 1 60 1000 0 0 ump_packet_zero =
      .ok ump_pkt_note_ch1 ∧
    midi_translate_2to1 ump_pkt_note_ch1 =
      .ok { status := 0x9C, channel := 12, data1 := 60, data2 := 1,
            length := 3 } := by
  decide

/-- C10: an enabled per-source filter never drops a packet whose format
tag is MIDI 2.0 (UMP payload): every test in `midi_router_check_filter`
is guarded by `packet->format == 0`. -/
theorem check_filter_passes_ump (p : midi_packet_t) (f : midi_filter_t)
    (h : p.format = 1) : midi_router_check_filter p f = true := by
  unfold midi_router_check_filter
  rw [h]
  split
  · rfl
  · rw [if_neg (by omega)]

theorem check_filter_passes_ump_witness :
    packet_ump_wifi.format = 1 ∧
      midi_router_check_filter packet_ump_wifi filter_block_all = true :=
  ⟨by decide, check_filter_passes_ump packet_ump_wifi filter_block_all (by decide)⟩

theorem ump_mt_size_words_eq_claim (mt : Nat) (h : mt < 16) :
    ump_mt_size_words mt = some (claim_mt_size mt) := by
  revert mt
  decide

theorem ump_mt_size_words_bounds (mt n : Nat)
    (h : ump_mt_size_words mt = some n) : 1 ≤ n ∧ n ≤ 4 := by
  unfold ump_mt_size_words at h
  split at h
  · injection h with h; omega
  · split at h
    · injection h with h; omega
    · split at h
      · injection h with h; omega
      · split at h
        · injection h with h; omega
        · exact Option.noConfusion h

/-- C7: decoding any word array succeeds (the `switch` covers every
Message Type nibble, so `ESP_ERR_NOT_SUPPORTED` is unreachable), copies
exactly the number of words the claim's size table mandates, and sets the
packet's Message Type to word-0 bits 31-28 and Group to bits 27-24. -/
theorem parse_packet_total (w : Words4) (q : ump_packet_t) :
    ump_parser_parse_packet w q =
      .ok { words := copyWords (claim_mt_size (UMP_GET_MT w.w0)) w q.words
            num_words := claim_mt_size (UMP_GET_MT w.w0)
            message_type := UMP_GET_MT w.w0
            group := UMP_GET_GROUP w.w0
            timestamp_us := 0 } := by
  have hlt : UMP_GET_MT w.w0 < 16 := by
    have hle : (w.w0 >>> 28) &&& 0x0F ≤ 0x0F := Nat.and_le_right
    unfold UMP_GET_MT
    omega
  unfold ump_parser_parse_packet
  rw [ump_mt_size_words_eq_claim _ hlt]

/-- C8 (amended): `ump_message_serialize` fails, with the
`ESP_ERR_INVALID_ARG` code, exactly when the caller's buffer capacity is
below `num_words`; with sufficient capacity it writes exactly `num_words`
words over the output array and succeeds. -/
theorem serialize_capacity_behavior (p : ump_packet_t) (w : Words4)
    (cap : Nat) :
    (cap < p.num_words →
      ump_message_serialize p w cap = .error .ESP_ERR_INVALID_ARG) ∧
    (p.num_words ≤ cap →
      ump_message_serialize p w cap =
        .ok (copyWords p.num_words p.words w)) := by
  refine ⟨fun h => ?_, fun h => ?_⟩
  · unfold ump_message_serialize
    rw [if_pos h]
  · unfold ump_message_serialize
    rw [if_neg (Nat.not_lt.mpr h)]

theorem serialize_capacity_behavior_witness :
    ((1 : Nat) < ump_pkt_two_words.num_words ∧
      ump_message_serialize ump_pkt_two_words words4_zero 1 =
        .error .ESP_ERR_INVALID_ARG) ∧
    (ump_pkt_two_words.num_words ≤ 4 ∧
      ump_message_serialize ump_pkt_two_words words4_zero 4 =
        .ok (copyWords ump_pkt_two_words.num_words ump_pkt_two_words.words
          words4_zero)) :=
  ⟨⟨by decide,
    (serialize_capacity_behavior ump_pkt_two_words words4_zero 1).1 (by decide)⟩,
   ⟨by decide,
    (serialize_capacity_behavior ump_pkt_two_words words4_zero 4).2 (by decide)⟩⟩

/-- C8 (counterexample): the short-buffer failure of
`ump_message_serialize` returns `ESP_ERR_INVALID_ARG` — the very code the
builders return for `InvalidArgument` violations (here
`ump_build_midi2_note_on` with note 128 > 0x7F) — so it does not carry a
distinct `InsufficientCapacity` error kind. -/
theorem serialize_short_buffer_error_code :
    ump_message_serialize ump_pkt_two_words words4_zero 1 =
      .error .ESP_ERR_INVALID_ARG ∧
    ump_build_midi2_note_on 0 0 128 0 0 0 ump_packet_zero =
      .error .ESP_ERR_INVALID_ARG := by
  decide

/-- C6 (counterexample): a valid one-word packet with `timestamp_us = 1`
round-trips to a packet that differs from it — decoding always resets
`timestamp_us` to 0 — so `decode(encode(p))` is not equal to `p` in all
fields. -/
theorem decode_encode_timestamp_counterexample :
    ump_packet_valid ump_pkt_ts1 ∧
    ump_message_serialize ump_pkt_ts1 words4_zero 4 =
      .ok ⟨0x20903C40, 0, 0, 0⟩ ∧
    ump_parser_parse_packet ⟨0x20903C40, 0, 0, 0⟩ ump_packet_zero ≠
      .ok ump_pkt_ts1 ∧
    ump_parser_parse_packet ⟨0x20903C40, 0, 0, 0⟩ ump_packet_zero =
      .ok ump_pkt_ts0 := by
  decide

set_option maxRecDepth 2048 in
/-- C6 (amended): for every valid UMP packet `p`, encoding it to a word
array and decoding that array back (into a zero-initialized packet)
yields `p` with `timestamp_us` reset to zero — equal to `p` in all fields
whenever `p.timestamp_us = 0`. -/
theorem decode_encode_roundtrip (p : ump_packet_t) (hp : ump_packet_valid p)
    (w : Words4) (hw : ump_message_serialize p words4_zero 4 = .ok w) :
    ump_parser_parse_packet w ump_packet_zero =
      .ok { p with timestamp_us := 0 } := by
  obtain ⟨h1, h2, h3, h4, h5, h6⟩ := hp
  have hb := ump_mt_size_words_bounds _ _ h3
  unfold ump_message_serialize at hw
  rw [if_neg (by omega)] at hw
  injection hw with hw
  subst hw
  obtain ⟨⟨pw0, pw1, pw2, pw3⟩, n, mt, g, ts⟩ := p
  simp only at h1 h2 h3 h4 h5 h6 hb ⊢
  subst h1 h2
  obtain ⟨hn1, hn4⟩ := hb
  interval_cases n <;>
    simp_all [ump_parser_parse_packet, copyWords, words4_zero,
      ump_packet_zero, h3]

theorem decode_encode_roundtrip_witness :
    ump_packet_valid ump_pkt_ts0 ∧
    ump_message_serialize ump_pkt_ts0 words4_zero 4 =
      .ok ⟨0x20903C40, 0, 0, 0⟩ ∧
    ump_parser_parse_packet ⟨0x20903C40, 0, 0, 0⟩ ump_packet_zero =
      .ok { ump_pkt_ts0 with timestamp_us := 0 } :=
  ⟨by decide, by decide,
   decode_encode_roundtrip ump_pkt_ts0 (by decide) ⟨0x20903C40, 0, 0, 0⟩
     (by decide)⟩

theorem router_translate_ok_iff (auto : Bool) (p : midi_packet_t) (w : Bool) :
    exceptIsOk (midi_router_translate auto p w) = true ↔
      (auto = false ∨ (p.format = 0 ∧ w = false) ∨ (p.format ≠ 0 ∧ w = true) ∨
       (p.format = 0 ∧ exceptIsOk (midi_translate_1to2 p.midi1) = true) ∨
       (p.format ≠ 0 ∧ exceptIsOk (midi_translate_2to1 p.ump) = true)) := by
  cases auto with
  | false => simp [midi_router_translate, exceptIsOk]
  | true =>
    by_cases hf : p.format = 0
    · cases w with
      | false => simp [midi_router_translate, hf, exceptIsOk]
      | true =>
        cases h : midi_translate_1to2 p.midi1 with
        | ok u => simp [midi_router_translate, hf, h, exceptIsOk]
        | error e => simp [midi_router_translate, hf, h, exceptIsOk]
    · cases w with
      | false =>
        cases h : midi_translate_2to1 p.ump with
        | ok m => simp [midi_router_translate, hf, h, exceptIsOk]
        | error e => simp [midi_router_translate, hf, h, exceptIsOk]
      | true => simp [midi_router_translate, hf, exceptIsOk]

/-- C1 (counterexample): with merge mode on, all filters disabled and
`auto_translate` off, a MIDI 1.0 packet from UART is dispatched to the
Ethernet destination even though Ethernet is MIDI-2-only and no
translation is attempted — the router forwards format-mismatched packets
untranslated whenever `auto_translate` is off, where the claim's condition
says the dispatch must not occur. -/
theorem router_dispatch_claim_counterexample :
    midi_router_dispatches config_merge_no_translate packet_midi1_uart
      MIDI_TRANSPORT_ETHERNET = true ∧
    claim_dispatch_condition config_merge_no_translate packet_midi1_uart
      MIDI_TRANSPORT_ETHERNET = false :=
  ⟨rfl, rfl⟩

/-- C1 (amended): the router dispatches packet `p` to destination `d` iff
the source filter passes `p`, the route is enabled (merge mode or matrix),
`d` is not the source, and either `auto_translate` is off (packets then go
out untranslated regardless of format), or `p`'s format already matches
`d`'s family (Ethernet, WiFi and USB want UMP; UART wants MIDI 1.0), or
the required translation of `p` succeeds. -/
theorem router_dispatch_characterization (c : midi_router_config_t)
    (p : midi_packet_t) (d : Nat) :
    midi_router_dispatches c p d = true ↔
      (midi_router_check_filter p (c.input_filters p.source) = true ∧
       (c.merge_inputs = true ∨ c.routing_matrix p.source d = true) ∧
       d ≠ p.source ∧
       (c.auto_translate = false ∨
        (p.format = 0 ∧ midi_router_dest_wants_ump d = false) ∨
        (p.format ≠ 0 ∧ midi_router_dest_wants_ump d = true) ∨
        (p.format = 0 ∧ exceptIsOk (midi_translate_1to2 p.midi1) = true) ∨
        (p.format ≠ 0 ∧ exceptIsOk (midi_translate_2to1 p.ump) = true))) := by
  unfold midi_router_dispatches
  simp only [Bool.and_eq_true, Bool.or_eq_true, decide_eq_true_eq,
    router_translate_ok_iff]
  tauto
